import Mathlib

/-!
Verification of `tcorr/tcorr_export_daily_image.py` (openet-ssebop-beta).

The script computes a daily Tcorr image per date in a configured range and
exports it to an Earth Engine asset collection.  We shallowly embed the parts
of `main` that the claims are about:

* calendar dates (compared as ISO strings in the source; for well-formed
  dates ISO string order coincides with the numeric order of
  `10000*year + 100*month + day`, which is how we model the comparisons);
* the era-based Landsat collection selection (lines 266-273);
* the cycle-day computation (lines 149-177, 372);
* the per-date export reconciliation (lines 213-230);
* the date loop and its (absent) error handling (lines 185-399);
* the prologue of `main` (lines 43-77), including the reference to
  `tmax_name` at line 70 before its first assignment at line 75;
* the empty-collection fallback (lines 330-333, 342-348);
* the per-scene statistics and filtering (lines 278-289, 321-323);
* the scene-id normalization and tile slicing (lines 291-309).
-/

namespace SSEBop

/-- A calendar date.  The source manipulates dates both as `datetime` values
and as ISO `YYYY-MM-DD` strings compared lexicographically; for well-formed
dates both orders agree with the order of `key` below. -/
structure Date where
  y : Nat
  m : Nat
  d : Nat
  deriving DecidableEq, Repr

/-- Numeric key realizing ISO-string order for well-formed dates. -/
def Date.key (dt : Date) : Nat := 10000 * dt.y + 100 * dt.m + dt.d

/-! ## Era-based source selection (lines 266-273)

```python
if export_date < "1999-01-01":
    landsat_coll = l5_coll
elif export_date <= "2011-12-31":
    landsat_coll = ee.ImageCollection(l7_coll.merge(l5_coll))
elif export_date <= "2013-03-24":
    landsat_coll = l7_coll
else:
    landsat_coll = ee.ImageCollection(l8_coll.merge(l7_coll))
```
-/

/-- The merged Landsat collection chosen for a date: exactly the four
right-hand sides of the era dispatch at lines 266-273. -/
inductive CollectionSpec where
  | l5only      -- `l5_coll`
  | l7l5merge   -- `l7_coll.merge(l5_coll)`
  | l7only      -- `l7_coll`
  | l8l7merge   -- `l8_coll.merge(l7_coll)`
  deriving DecidableEq, Repr

/-- Lines 266-273 of `main`: the era dispatch on `export_date`.  String
comparisons of ISO dates are modelled by comparisons of `Date.key`; the
numerals are the keys of the date literals in the source
(19990101 for the string "1999-01-01", and so on). -/
def selectLandsatColl (export_date : Date) : CollectionSpec :=
  if export_date.key < 19990101 then .l5only
  else if export_date.key ≤ 20111231 then .l7l5merge
  else if export_date.key ≤ 20130324 then .l7only
  else .l8l7merge

/-- The era window on which a given `CollectionSpec` is chosen, read off the
same four guards (a partition of the date line into four intervals). -/
def inEra (spec : CollectionSpec) (dt : Date) : Prop :=
  match spec with
  | .l5only    => dt.key < 19990101
  | .l7l5merge => 19990101 ≤ dt.key ∧ dt.key ≤ 20111231
  | .l7only    => 20111231 < dt.key ∧ dt.key ≤ 20130324
  | .l8l7merge => 20130324 < dt.key

instance (spec : CollectionSpec) (dt : Date) : Decidable (inEra spec dt) := by
  cases spec <;> simp only [inEra] <;> infer_instance

/-! ## Cycle day (lines 149-177 and 372)

The table at lines 149-158 maps cycle day 1 to the reference date
"1970-01-03", and line 372 sets
`cycle_day = ((export_dt - cycle_base_dt).days % 8) + 1`.
We model a `datetime` date as its signed day count since 1970-01-01, so
`cycle_base_dt = 2`.  The Python `%` on ints agrees with `Int.emod`. -/

/-- Line 177: `cycle_base_dt` is the date "1970-01-03" (`cycle_dates[1]`),
here as days since 1970-01-01. -/
def cycle_base_dt : Int := 2

/-- Line 372: the `cycle_day` property attached to the daily image, with
`export_dt` as days since 1970-01-01. -/
def cycle_day (export_dt : Int) : Int := (export_dt - cycle_base_dt) % 8 + 1

/-- Modelled from the spec: `cycleDay(date) = ((date - epoch).days mod 8) + 1`
with the epoch fixed at the reference date 1970-01-03 (day number 2). -/
def cycleDaySpec (dt : Int) : Int := ((dt - 2) % 8) + 1

/-! ## Export reconciliation (lines 213-230)

```python
if overwrite_flag:
    if export_id in tasks.keys():
        ee.data.cancelTask(tasks[export_id])
    # This is intentionally not an "elif" ...
    if (ini["EXPORT"]["export_dest"].upper() == "ASSET" and
            asset_id in asset_list):
        ee.data.deleteAsset(asset_id)
else:
    if export_id in tasks.keys():
        continue
    elif (ini["EXPORT"]["export_dest"].upper() == "ASSET" and
            asset_id in asset_list):
        continue
```
The export destination is the string "ASSET" on every path that reaches this
point (any other value raises `ValueError` at lines 118-124), so the
destination conjuncts are true here.  A date that does not `continue` goes on
to build and start the export task (lines 384-395). -/

/-- Remote mutations a date of the loop can issue, in program order. -/
inductive RAction where
  | cancelTask    -- `ee.data.cancelTask(tasks[export_id])`, line 216
  | deleteAsset   -- `ee.data.deleteAsset(asset_id)`, line 222
  | startTask     -- `utils.ee_task_start(task)`, line 395
  deriving DecidableEq, Repr

/-- Terminal intent of the reconciliation block for one date: `continue`
past the rest of the loop body, or fall through to the task submission at
lines 384-395. -/
inductive Decision where
  | skip
  | submit
  deriving DecidableEq, Repr

/-- Per-date remote state as `main` observes it: is `export_id` among the
pending task keys, and is `asset_id` in the asset list? -/
structure DState where
  pending : Bool
  asset : Bool
  deriving DecidableEq, Repr

/-- Lines 213-230: the remote mutations issued (in order) by the
reconciliation block and the resulting decision for one date, given the
overwrite flag and the observed remote state. -/
def reconcile (overwrite_flag : Bool) (st : DState) : List RAction × Decision :=
  if overwrite_flag then
    ((if st.pending then [RAction.cancelTask] else []) ++
     (if st.asset then [RAction.deleteAsset] else []), Decision.submit)
  else
    if st.pending then ([], Decision.skip)
    else if st.asset then ([], Decision.skip)
    else ([], Decision.submit)

/-- The decision component of `reconcile`. -/
def decisionOf (overwrite_flag : Bool) (st : DState) : Decision :=
  (reconcile overwrite_flag st).2

/-! ## The date loop and its error handling (lines 185-399)

The body of the `for export_dt in utils.date_range(...)` loop contains no
`try`/`except`.  The remote mutations it performs are
`ee.data.cancelTask` (line 216), `ee.data.deleteAsset` (line 222) and the
task submission (line 395); an exception raised by any of them propagates
out of the `for` statement and terminates `main`.  We model the remote
service by a function saying which calls fail, and the loop with the
standard Python semantics: an uncaught exception stops the iteration. -/

/-- The remote calls that the processing of one date can make and that may
fail. -/
inductive RemoteCall where
  | cancelTask
  | deleteAsset
  | submitTask
  deriving DecidableEq, Repr

/-- Processing of one date (the loop body from line 213 on): the
reconciliation mutations are attempted in program order, then — unless the
date was skipped — the task submission.  `svcFails c = true` means the
remote call `c` raises; the first raising call aborts the body with an
exception (`Except.error`). -/
def processDate (svcFails : RemoteCall → Bool) (overwrite_flag : Bool)
    (st : DState) : Except Unit (List RAction × Decision) :=
  if overwrite_flag then
    if st.pending && svcFails RemoteCall.cancelTask then Except.error ()
    else if st.asset && svcFails RemoteCall.deleteAsset then Except.error ()
    else if svcFails RemoteCall.submitTask then Except.error ()
    else Except.ok (reconcile overwrite_flag st)
  else
    if st.pending || st.asset then Except.ok (reconcile overwrite_flag st)
    else if svcFails RemoteCall.submitTask then Except.error ()
    else Except.ok (reconcile overwrite_flag st)

/-- Lines 185-399: the `for` loop over the date range.  Each processed date
contributes its (actions, decision) record; an exception from a body
propagates, so later dates are not processed and the run ends in
`Except.error`. -/
def runLoop (svcFails : RemoteCall → Bool) (overwrite_flag : Bool)
    (st : Date → DState) :
    List Date → Except Unit (List (Date × List RAction × Decision))
  | [] => Except.ok []
  | d :: rest =>
    match processDate svcFails overwrite_flag (st d) with
    | Except.error e => Except.error e
    | Except.ok r =>
      match runLoop svcFails overwrite_flag st rest with
      | Except.error e => Except.error e
      | Except.ok l => Except.ok ((d, r) :: l)

/-- A remote service on which no call fails. -/
def svcOk : RemoteCall → Bool := fun _ => false

/-- The dates for which a pass of the loop submits an export task, given the
overwrite flag and the per-date remote state it observes. -/
def submissions (overwrite_flag : Bool) (st : Date → DState)
    (dates : List Date) : List Date :=
  dates.filter (fun d => decisionOf overwrite_flag (st d) == Decision.submit)

/-! ## The prologue of `main` (lines 36-77)

Statement order in the source:

1. line 38: read the INI file (local, no remote calls);
2. lines 43-47: if the Tmax source upper-cases to "CIMIS" and the configured
   end date is below "2003-10-01", log an error and call `sys.exit()` —
   with no argument, which makes the interpreter exit with status 0;
3. lines 48-53: the DAYMET case only logs a warning and continues;
4. lines 61-67: `ee.Initialize(...)` — the first remote/session call;
5. lines 70-71: `tcorr_daily_coll_id` is computed from
   `tmax_name.lower()`, but the local `tmax_name` is first assigned at
   line 75, so the read raises `UnboundLocalError`;
6. line 75 onward, including the date loop at line 185, is unreachable.
-/

/-- The configuration fields the prologue reads. -/
structure Config where
  tmax_source : String   -- `ini[model_name]["tmax_source"]`
  end_date : Date        -- `ini["INPUTS"]["end_date"]`
  export_coll : String   -- `ini["EXPORT"]["export_coll"]`

/-- Semantics of the Python `str.upper()` call at line 43 on the ASCII
source names used by the script: upper-case every character. -/
def pyUpper (s : String) : String := String.mk (s.data.map Char.toUpper)

/-- Abnormal terminations of the prologue. -/
inductive PyExit where
  | systemExit (code : Nat)  -- `sys.exit()`; no argument means status 0
  | unboundLocalError        -- a local variable read before assignment
  deriving DecidableEq, Repr

/-- Process exit status of an abnormal termination: `sys.exit()` with no
argument exits with status 0; an uncaught exception exits with status 1. -/
def PyExit.status : PyExit → Nat
  | PyExit.systemExit c => c
  | PyExit.unboundLocalError => 1

/-- Remote or session calls the prologue can make before line 70. -/
inductive PrologueCall where
  | eeInitialize   -- lines 61-67
  deriving DecidableEq, Repr

/-- Locals of `main` that line 70 reads.  `tmax_name` is first assigned at
line 75, so when line 70 executes it is still unbound (`none`). -/
structure MainLocals where
  tmax_name : Option String

/-- The locals environment in force when line 70 executes. -/
def localsAtLine70 : MainLocals := { tmax_name := none }

/-- Line 70: evaluate
`"{}/{}_daily".format(ini["EXPORT"]["export_coll"], tmax_name.lower())`
in the given locals; reading an unassigned local raises. -/
def evalTcorrDailyCollId (cfg : Config) (env : MainLocals) :
    Except PyExit String :=
  match env.tmax_name with
  | none => Except.error PyExit.unboundLocalError
  | some v => Except.ok (cfg.export_coll ++ "/" ++ v.toLower ++ "_daily")

/-- Lines 43-71 of `main`: the remote/session calls made, paired with how
the prologue ended.  A normal result would carry the daily collection id
with which execution would continue toward the date loop. -/
def mainPrologue (cfg : Config) : List PrologueCall × Except PyExit String :=
  if pyUpper cfg.tmax_source = "CIMIS" ∧ cfg.end_date.key < 20031001 then
    ([], Except.error (PyExit.systemExit 0))
  else
    ([PrologueCall.eeInitialize], evalTcorrDailyCollId cfg localsAtLine70)

/-- The date-loop outcome of a full `main` run: `none` when the loop was
never entered because the prologue exited or raised first.  Every task
submission, cancellation and deletion in `main` happens inside the loop, so
a run with value `none` here submits, cancels and deletes nothing. -/
def mainDateLoop (cfg : Config) (svcFails : RemoteCall → Bool)
    (overwrite_flag : Bool) (st : Date → DState) (dates : List Date) :
    Option (Except Unit (List (Date × List RAction × Decision))) :=
  match (mainPrologue cfg).2 with
  | Except.error _ => none
  | Except.ok _ => some (runLoop svcFails overwrite_flag st dates)

/-! ## Scenes, per-scene statistics and the daily image
(lines 278-313, 321-323, 330-333, 342-348)

Rasters are modelled as maps from a pixel index to an optional value;
`none` is a masked pixel.  Numeric values are rationals standing for the
real-valued band values; none of the verified claims depends on
floating-point rounding. -/

/-- A raster: each pixel carries an optional value; `none` is masked. -/
def Raster : Type := Nat → Option ℚ

/-- Semantics of `updateMask(0)` at line 333: a zero mask masks every
pixel. -/
def updateMask0 (_img : Raster) : Raster := fun _ => none

/-- Per-pixel mean reducer of `ImageCollection.mean()` (line 332): the mean
of the unmasked values at the pixel, masked where no image has a value. -/
def collMean (imgs : List Raster) : Raster := fun p =>
  let vals := imgs.filterMap (fun img => img p)
  if vals.length = 0 then none
  else some (vals.sum / (vals.length : ℚ))

/-- The fields of a raw Landsat scene that `tcorr_img_func` reads. -/
structure Scene where
  system_index : String      -- `image.get("system:index")`
  spacecraft_id : String     -- `image.get("SPACECRAFT_ID")`
  footprint : Nat → Bool     -- `image.geometry()`

/-- The dictionary returned by `tcorr_stats` of the external statistical
model (line 279-282): either field may be absent. -/
structure TStats where
  tcorr_p5 : Option ℚ
  tcorr_count : Option ℚ

/-- The image produced by `tcorr_img_func` for one scene, reduced to the
properties set at lines 306-313 plus the clip footprint. -/
structure SceneImg where
  tcorr : ℚ
  count : ℚ
  scene_id : String
  wrs2_tile : String
  spacecraft_id : String
  footprint : Nat → Bool

/-- Semantics of `ee.String.slice(start, stop)` (line 309): the substring
from character position `start` up to but excluding `stop`, clamped to the
string length. -/
def sliceStr (s : String) (start stop : Nat) : String :=
  String.mk ((s.data.drop start).take (stop - start))

/-- Splitting a character list on a separator character, keeping empty
components, as the Python and Earth Engine split of a string on "_" does
on the identifiers at hand. -/
def splitChars (sep : Char) : List Char → List (List Char)
  | [] => [[]]
  | c :: rest =>
    if c = sep then [] :: splitChars sep rest
    else
      match splitChars sep rest with
      | [] => [[c]]
      | h :: t => (c :: h) :: t

/-- Semantics of `ee.String.split` on the underscore (line 293): the list
of underscore-separated components of the string. -/
def splitU (s : String) : List String :=
  (splitChars '_' s.data).map String.mk

/-- Lines 291-296: split `system:index` on the underscore, keep the last
three components (`slice(-3)`), and join them with underscores via
`get(0)`, `get(1)`, `get(2)`.  When the split yields fewer than three
components the `get` calls raise, modelled as `none`. -/
def normalized_scene_id (system_index : String) : Option String :=
  match (splitU system_index).drop ((splitU system_index).length - 3) with
  | [a, b, c] => some (a ++ "_" ++ b ++ "_" ++ c)
  | _ => none

/-- Lines 278-313: `tcorr_img_func`.  The statistics dictionary is combined
with `{"tcorr_p5": 0, "tcorr_count": 0}` with `overwrite=False`, i.e. a
missing field is filled with 0 and a present field is kept.  The returned
image is `tmax_mask.add(tcorr)` clipped to the scene geometry, with the
properties of lines 306-313; `wrs2_tile` is `scene_id.slice(5, 11)`. -/
def tcorr_img_func (model : Scene → TStats) (image : Scene) :
    Option SceneImg :=
  match normalized_scene_id image.system_index with
  | none => none
  | some sid =>
    some { tcorr := (model image).tcorr_p5.getD 0,
           count := (model image).tcorr_count.getD 0,
           scene_id := sid,
           wrs2_tile := sliceStr sid 5 11,
           spacecraft_id := image.spacecraft_id,
           footprint := image.footprint }

/-- The raster of a scene image (lines 303-305): `tmax_mask.add(tcorr)`
clipped to the scene footprint. -/
def SceneImg.raster (tmax_mask : Raster) (s : SceneImg) : Raster := fun p =>
  if s.footprint p then (tmax_mask p).map (fun v => v + s.tcorr) else none

/-- Semantics of mapping a computed function over a collection
(`landsat_coll.map(tcorr_img_func)`, line 321): a scene on which the
function raises aborts the whole computation. -/
def eeMap (f : Scene → Option SceneImg) :
    List Scene → Option (List SceneImg)
  | [] => some []
  | s :: rest =>
    match f s with
    | none => none
    | some img =>
      match eeMap f rest with
      | none => none
      | some l => some (img :: l)

/-- Lines 321-323: map `tcorr_img_func` over the Landsat collection and
keep the images whose `count` property is not less than
`min_pixel_count`. -/
def tcorr_img_coll (model : Scene → TStats) (min_pixel_count : ℚ)
    (scenes : List Scene) : Option (List SceneImg) :=
  (eeMap (tcorr_img_func model) scenes).map
    (fun l => l.filter (fun img => decide (min_pixel_count ≤ img.count)))

/-- Lines 330-333: the daily image is the mean of the per-scene images when
the filtered collection is non-empty, and the fully masked
`tmax_mask.updateMask(0)` otherwise. -/
def tcorrDailyImg (tmax_mask : Raster) (coll : List SceneImg) : Raster :=
  if coll.length > 0 then collMean (coll.map (SceneImg.raster tmax_mask))
  else updateMask0 tmax_mask

/-- Lines 342-344: `unique_properties` builds the value histogram of a
property over the collection and joins its keys with commas; the key set is
the set of distinct property values (empty for an empty collection). -/
def unique_properties (coll : List SceneImg) (property : SceneImg → String) :
    String :=
  String.intercalate "," (coll.map property).dedup

/-- Lines 345-346: the `wrs2_tiles` property of the daily image. -/
def wrs2_tile_list (coll : List SceneImg) : String :=
  "" ++ unique_properties coll (fun img => img.wrs2_tile)

/-- Lines 347-348: the `landsat` property of the daily image. -/
def landsat_list (coll : List SceneImg) : String :=
  "" ++ unique_properties coll (fun img => img.spacecraft_id)

/-! ## Theorems -/

/-- Helper for C1: the era dispatch is total and the four era windows are
mutually exclusive. -/
theorem era_partition (dt : Date) :
    inEra (selectLandsatColl dt) dt ∧
    ∀ spec, inEra spec dt → spec = selectLandsatColl dt := by
  unfold selectLandsatColl
  split_ifs with h1 h2 h3 <;>
    refine ⟨by simp only [inEra]; omega, ?_⟩ <;>
    · intro spec hs
      cases spec <;> simp only [inEra] at hs <;> first | rfl | (exfalso; omega)

/-- Claim C1, counterexample: the claim says a date exactly at an era cutoff
resolves to the newer (post-cutoff) sensor combination.  On the code, the
guards at lines 268 and 270 are inclusive (`<=`), so the cutoff dates
2011-12-31 and 2013-03-24 resolve to the older combination: 2011-12-31
selects the merged L7+L5 collection rather than L7 alone, and 2013-03-24
selects L7 alone rather than the merged L8+L7 collection. -/
theorem era_boundary_newer_counterexample :
    selectLandsatColl (Date.mk 2011 12 31) ≠ CollectionSpec.l7only ∧
    selectLandsatColl (Date.mk 2013 3 24) ≠ CollectionSpec.l8l7merge ∧
    selectLandsatColl (Date.mk 2011 12 31) = CollectionSpec.l7l5merge ∧
    selectLandsatColl (Date.mk 2013 3 24) = CollectionSpec.l7only := by
  decide

/-- Claim C1, amended: era-based source selection is total and
non-overlapping — for every date exactly one era window applies and the
selection returns its combination — but a date exactly equal to the era
cutoffs 2011-12-31 or 2013-03-24 resolves to the older (pre-cutoff)
combination, the cutoffs being inclusive on the older side; only the
1999-01-01 boundary belongs to its newer window. -/
theorem era_selection_total_boundary_older (dt : Date) :
    (inEra (selectLandsatColl dt) dt ∧
      ∀ spec, inEra spec dt → spec = selectLandsatColl dt) ∧
    selectLandsatColl (Date.mk 2011 12 31) = CollectionSpec.l7l5merge ∧
    selectLandsatColl (Date.mk 2013 3 24) = CollectionSpec.l7only ∧
    selectLandsatColl (Date.mk 1999 1 1) = CollectionSpec.l7l5merge :=
  ⟨era_partition dt, by decide, by decide, by decide⟩

/-- Witness for C1 at the concrete date 2005-06-15: it lies in the merged
L7+L5 era, and that is the only era window containing it. -/
theorem era_selection_total_boundary_older_witness :
    inEra (selectLandsatColl (Date.mk 2005 6 15)) (Date.mk 2005 6 15) ∧
    CollectionSpec.l7l5merge = selectLandsatColl (Date.mk 2005 6 15) :=
  ⟨(era_selection_total_boundary_older (Date.mk 2005 6 15)).1.1,
   (era_selection_total_boundary_older (Date.mk 2005 6 15)).1.2
     CollectionSpec.l7l5merge (by decide)⟩

/-- Claim C7: the cycle day attached to the daily image (line 372) equals
`((d - epoch).days mod 8) + 1` for the fixed epoch 1970-01-03, lies in
[1, 8] for every date, and is periodic in the date with period 8 days. -/
theorem cycle_day_formula_bounds_period (dt : Int) :
    cycle_day dt = cycleDaySpec dt ∧
    1 ≤ cycle_day dt ∧ cycle_day dt ≤ 8 ∧
    cycle_day (dt + 8) = cycle_day dt := by
  unfold cycle_day cycleDaySpec cycle_base_dt
  refine ⟨rfl, ?_, ?_, ?_⟩ <;> omega

/-- Claim C4: the reconciliation block realizes the full 8-row decision
table.  With `overwrite=false` any pending task or existing asset yields a
skip; with `overwrite=true` a pending task is cancelled and an existing
asset deleted — both, in that order, when both exist — and the date is
always submitted. -/
theorem reconciler_decision_table :
    reconcile false (DState.mk false false) = ([], Decision.submit) ∧
    reconcile false (DState.mk true false) = ([], Decision.skip) ∧
    reconcile false (DState.mk false true) = ([], Decision.skip) ∧
    reconcile false (DState.mk true true) = ([], Decision.skip) ∧
    reconcile true (DState.mk false false) = ([], Decision.submit) ∧
    reconcile true (DState.mk true false) =
      ([RAction.cancelTask], Decision.submit) ∧
    reconcile true (DState.mk false true) =
      ([RAction.deleteAsset], Decision.submit) ∧
    reconcile true (DState.mk true true) =
      ([RAction.cancelTask, RAction.deleteAsset], Decision.submit) := by
  decide

/-- Claim C2, counterexample: the claim says a remote failure aborts only
the failing date and the run continues to the next date.  With two dates,
the first having a pending task, `overwrite=true` and a remote service
whose cancel call raises, the whole run terminates with the exception: no
record is produced for the second date.  With a non-failing service the
same run processes both dates, so it is precisely the exception that ends
the run. -/
theorem remote_failure_counterexample :
    runLoop (fun c => c == RemoteCall.cancelTask) true
        (fun _ => DState.mk true false)
        [Date.mk 2020 1 1, Date.mk 2020 1 2] = Except.error () ∧
    runLoop svcOk true (fun _ => DState.mk true false)
        [Date.mk 2020 1 1, Date.mk 2020 1 2] =
      Except.ok [(Date.mk 2020 1 1, [RAction.cancelTask], Decision.submit),
                 (Date.mk 2020 1 2, [RAction.cancelTask], Decision.submit)] := by
  constructor <;> rfl

/-- Claim C2, amended: the date loop has no exception handler, so a failure
raised by a remote cancel, delete or submit call during some date aborts
the entire run — the loop terminates at the failing date and no date after
it is processed — rather than continuing with the next date. -/
theorem remote_failure_aborts_entire_run (svcFails : RemoteCall → Bool)
    (overwrite_flag : Bool) (st : Date → DState) (pre : List Date)
    (d : Date) (rest : List Date)
    (hfail : processDate svcFails overwrite_flag (st d) = Except.error ()) :
    runLoop svcFails overwrite_flag st (pre ++ d :: rest) =
      Except.error () := by
  induction pre with
  | nil =>
    simp only [List.nil_append, runLoop]
    rw [hfail]
  | cons p ps ih =>
    simp only [List.cons_append, runLoop, List.append_eq]
    rw [ih]
    cases hp : processDate svcFails overwrite_flag (st p) with
    | error e => cases e; rfl
    | ok r => rfl

/-- Witness for C2: a two-date run, `overwrite=true`, where the second date
has an existing asset and the delete call raises; the run ends with the
exception. -/
theorem remote_failure_aborts_entire_run_witness :
    runLoop (fun c => c == RemoteCall.deleteAsset) true
        (fun dt => DState.mk false (dt == Date.mk 2020 1 2))
        [Date.mk 2020 1 1, Date.mk 2020 1 2] = Except.error () :=
  remote_failure_aborts_entire_run (fun c => c == RemoteCall.deleteAsset)
    true (fun dt => DState.mk false (dt == Date.mk 2020 1 2))
    [Date.mk 2020 1 1] (Date.mk 2020 1 2) [] (by rfl)

/-- Claim C5: re-running with `overwrite=false` after a fully successful
first run issues zero submissions.  `st1` is the remote state the first
run observed and `st2` the state the second run observes.  The hypotheses
say: a task pending during the first run is still pending or has completed
into its asset; an asset present during the first run is still present; a
date the first run submitted has its task pending or its asset present.
Under these, every date skips on the second run. -/
theorem second_run_no_submissions (st1 st2 : Date → DState)
    (dates : List Date)
    (hpend : ∀ d ∈ dates, (st1 d).pending = true →
        (st2 d).pending = true ∨ (st2 d).asset = true)
    (hasset : ∀ d ∈ dates, (st1 d).asset = true → (st2 d).asset = true)
    (hsubmitted : ∀ d ∈ dates, decisionOf false (st1 d) = Decision.submit →
        (st2 d).pending = true ∨ (st2 d).asset = true) :
    submissions false st2 dates = [] := by
  unfold submissions
  rw [List.filter_eq_nil_iff]
  intro d hd
  simp only [beq_iff_eq]
  intro hdec
  have h2 : (st2 d).pending = true ∨ (st2 d).asset = true := by
    by_cases hp1 : (st1 d).pending = true
    · exact hpend d hd hp1
    · by_cases ha1 : (st1 d).asset = true
      · exact Or.inr (hasset d hd ha1)
      · refine hsubmitted d hd ?_
        have hp1' : (st1 d).pending = false := by simpa using hp1
        have ha1' : (st1 d).asset = false := by simpa using ha1
        unfold decisionOf reconcile
        simp [hp1', ha1']
  unfold decisionOf reconcile at hdec
  rcases h2 with h2 | h2
  · simp [h2] at hdec
  · by_cases hp2 : (st2 d).pending = true
    · simp [hp2] at hdec
    · have hp2' : (st2 d).pending = false := by simpa using hp2
      simp [hp2', h2] at hdec

/-- Witness for C5: one date, unpublished during the first run (so the
first run submitted it); its task is pending when the second run looks,
and the second run submits nothing. -/
theorem second_run_no_submissions_witness :
    submissions false (fun _ => DState.mk true false)
      [Date.mk 2020 1 2] = [] :=
  second_run_no_submissions (fun _ => DState.mk false false)
    (fun _ => DState.mk true false) [Date.mk 2020 1 2]
    (fun _ _ h => Bool.noConfusion h)
    (fun _ _ h => Bool.noConfusion h)
    (fun _ _ _ => Or.inl rfl)

/-- Claim C3: for every configuration that passes the fatal CIMIS check,
`main` raises an unbound-name error at line 70 — the output-collection
identifier references the local `tmax_name` five lines before its first
assignment at line 75 — so the date loop is never entered and no task is
ever submitted, cancelled or deleted. -/
theorem unbound_tmax_name_aborts_main (cfg : Config)
    (hwf : ¬ (pyUpper cfg.tmax_source = "CIMIS" ∧
              cfg.end_date.key < 20031001)) :
    (mainPrologue cfg).2 = Except.error PyExit.unboundLocalError ∧
    ∀ svcFails overwrite_flag st dates,
      mainDateLoop cfg svcFails overwrite_flag st dates = none := by
  have h2 : (mainPrologue cfg).2 = Except.error PyExit.unboundLocalError := by
    unfold mainPrologue
    rw [if_neg hwf]
    rfl
  refine ⟨h2, fun svcFails overwrite_flag st dates => ?_⟩
  unfold mainDateLoop
  rw [h2]

/-- Witness for C3: with the DAYMET Tmax source (not CIMIS-fatal) the
prologue ends in the unbound-name error and the date loop never runs. -/
theorem unbound_tmax_name_aborts_main_witness :
    (mainPrologue (Config.mk "DAYMET" (Date.mk 2017 12 31) "tcorr")).2 =
      Except.error PyExit.unboundLocalError ∧
    mainDateLoop (Config.mk "DAYMET" (Date.mk 2017 12 31) "tcorr")
      svcOk false (fun _ => DState.mk false false) [] = none :=
  ⟨(unbound_tmax_name_aborts_main
      (Config.mk "DAYMET" (Date.mk 2017 12 31) "tcorr") (by decide)).1,
   (unbound_tmax_name_aborts_main
      (Config.mk "DAYMET" (Date.mk 2017 12 31) "tcorr") (by decide)).2
      svcOk false (fun _ => DState.mk false false) []⟩

/-- Claim C10, counterexample: the claim says a fatally incompatible
configuration terminates with a non-zero exit status.  With the CIMIS
source and end date 2003-09-30 the program does log the error and stop
before any remote call and before any date, but line 47 is `sys.exit()`
with no argument, which exits the interpreter with status 0. -/
theorem cimis_exit_status_zero_counterexample :
    mainPrologue (Config.mk "CIMIS" (Date.mk 2003 9 30) "tcorr") =
      ([], Except.error (PyExit.systemExit 0)) ∧
    PyExit.status (PyExit.systemExit 0) = 0 := by
  constructor
  · unfold mainPrologue
    rw [if_pos (by decide)]
  · rfl

/-- Claim C10, amended: whenever the configuration is fatally incompatible
(the CIMIS Tmax source with an end date before 2003-10-01), the program
emits the error message and terminates before making any remote call and
before processing any date, but it does so via `sys.exit()` with no
argument, so the exit status is zero rather than non-zero. -/
theorem cimis_incompatible_exits_before_remote_calls (cfg : Config)
    (hsrc : pyUpper cfg.tmax_source = "CIMIS")
    (hdate : cfg.end_date.key < 20031001) :
    mainPrologue cfg = ([], Except.error (PyExit.systemExit 0)) ∧
    PyExit.status (PyExit.systemExit 0) = 0 ∧
    ∀ svcFails overwrite_flag st dates,
      mainDateLoop cfg svcFails overwrite_flag st dates = none := by
  have h : mainPrologue cfg = ([], Except.error (PyExit.systemExit 0)) := by
    unfold mainPrologue
    rw [if_pos ⟨hsrc, hdate⟩]
  refine ⟨h, rfl, fun svcFails overwrite_flag st dates => ?_⟩
  unfold mainDateLoop
  rw [h]

/-- Witness for C10 with the lower-case source string "cimis" (the source
upper-cases it) and end date 2000-01-01. -/
theorem cimis_incompatible_exits_witness :
    mainPrologue (Config.mk "cimis" (Date.mk 2000 1 1) "tcorr") =
      ([], Except.error (PyExit.systemExit 0)) ∧
    mainDateLoop (Config.mk "cimis" (Date.mk 2000 1 1) "tcorr")
      svcOk true (fun _ => DState.mk false false) [Date.mk 1999 6 1] = none :=
  ⟨(cimis_incompatible_exits_before_remote_calls
      (Config.mk "cimis" (Date.mk 2000 1 1) "tcorr")
      (by decide) (by decide)).1,
   (cimis_incompatible_exits_before_remote_calls
      (Config.mk "cimis" (Date.mk 2000 1 1) "tcorr")
      (by decide) (by decide)).2.2
      svcOk true (fun _ => DState.mk false false) [Date.mk 1999 6 1]⟩

/-- Claim C6: on a date with no surviving scene corrections the daily image
is the fully masked `tmax_mask.updateMask(0)` — every pixel is masked, in
particular no pixel carries the value 0 — and both the `wrs2_tiles` and
the `landsat` property are the empty string. -/
theorem empty_collection_fallback (tmax_mask : Raster) :
    (∀ p, tcorrDailyImg tmax_mask [] p = none) ∧
    (∀ p, tcorrDailyImg tmax_mask [] p ≠ some 0) ∧
    wrs2_tile_list [] = "" ∧
    landsat_list [] = "" :=
  ⟨fun _ => rfl, fun _ h => Option.noConfusion h, rfl, rfl⟩

/-- Witness for C6 at a concrete reference raster: pixel 0 of the fallback
image is masked and the tile list is empty. -/
theorem empty_collection_fallback_witness :
    tcorrDailyImg (fun _ => some 5) [] 0 = none ∧
    wrs2_tile_list [] = "" :=
  ⟨(empty_collection_fallback (fun _ => some 5)).1 0,
   (empty_collection_fallback (fun _ => some 5)).2.2.1⟩

/-- Helper for C8: an image produced by a member scene belongs to the
mapped collection. -/
theorem eeMap_mem {f : Scene → Option SceneImg} :
    ∀ {scenes : List Scene} {l : List SceneImg}, eeMap f scenes = some l →
      ∀ {s : Scene} {img : SceneImg}, s ∈ scenes → f s = some img →
        img ∈ l := by
  intro scenes
  induction scenes with
  | nil =>
    intro l _ s img hs
    exact absurd hs (List.not_mem_nil s)
  | cons a rest ih =>
    intro l h s img hs hf
    unfold eeMap at h
    cases hfa : f a with
    | none =>
      rw [hfa] at h
      exact Option.noConfusion h
    | some ia =>
      rw [hfa] at h
      cases hrest : eeMap f rest with
      | none =>
        rw [hrest] at h
        exact Option.noConfusion h
      | some lr =>
        rw [hrest] at h
        injection h with h'
        subst h'
        rcases List.mem_cons.mp hs with heq | hmem
        · subst heq
          rw [hfa] at hf
          injection hf with hf'
          rw [← hf']
          exact List.mem_cons_self ia lr
        · exact List.mem_cons_of_mem _ (ih hrest hmem hf)

/-- Claim C8: the Scene Corrector substitutes 0 for a correction value or
support count the statistical model leaves absent (and keeps present
values), and a per-scene correction belongs to the filtered daily
collection exactly when its support count is not strictly below the
configured minimum pixel count. -/
theorem scene_stats_defaults_and_count_filter
    (model : Scene → TStats) (min_pixel_count : ℚ) (scenes : List Scene)
    (l : List SceneImg) (s : Scene) (img : SceneImg)
    (hcoll : tcorr_img_coll model min_pixel_count scenes = some l)
    (hs : s ∈ scenes) (himg : tcorr_img_func model s = some img) :
    ((model s).tcorr_p5 = none → img.tcorr = 0) ∧
    ((model s).tcorr_count = none → img.count = 0) ∧
    (∀ v, (model s).tcorr_p5 = some v → img.tcorr = v) ∧
    (∀ c, (model s).tcorr_count = some c → img.count = c) ∧
    (img ∈ l ↔ ¬ img.count < min_pixel_count) := by
  have hfields : img.tcorr = (model s).tcorr_p5.getD 0 ∧
      img.count = (model s).tcorr_count.getD 0 := by
    unfold tcorr_img_func at himg
    cases hnid : normalized_scene_id s.system_index with
    | none =>
      rw [hnid] at himg
      exact Option.noConfusion himg
    | some sid =>
      rw [hnid] at himg
      injection himg with h'
      rw [← h']
      exact ⟨rfl, rfl⟩
  unfold tcorr_img_coll at hcoll
  cases hmap : eeMap (tcorr_img_func model) scenes with
  | none =>
    rw [hmap] at hcoll
    exact Option.noConfusion hcoll
  | some l0 =>
    rw [hmap] at hcoll
    injection hcoll with hl
    refine ⟨?_, ?_, ?_, ?_, ?_⟩
    · intro h0; rw [hfields.1, h0]; rfl
    · intro h0; rw [hfields.2, h0]; rfl
    · intro v hv; rw [hfields.1, hv]; rfl
    · intro c hc; rw [hfields.2, hc]; rfl
    · subst hl
      constructor
      · intro hmem
        exact not_lt.mpr (of_decide_eq_true (List.mem_filter.mp hmem).2)
      · intro hnlt
        exact List.mem_filter.mpr
          ⟨eeMap_mem hmap hs himg, decide_eq_true (not_lt.mp hnlt)⟩

/-- Witness for C8: a model that returns neither field for the single scene
of a date; the scene correction gets value 0 and count 0, and with minimum
pixel count 1 it is excluded from the (then empty) daily collection. -/
theorem scene_stats_defaults_witness :
    (SceneImg.mk 0 0 "LC08_044033_20170716" "044033" "LANDSAT_8"
        (fun _ => true)).tcorr = 0 ∧
    (SceneImg.mk 0 0 "LC08_044033_20170716" "044033" "LANDSAT_8"
        (fun _ => true)).count = 0 ∧
    ((SceneImg.mk 0 0 "LC08_044033_20170716" "044033" "LANDSAT_8"
        (fun _ => true)) ∈ ([] : List SceneImg) ↔
      ¬ (SceneImg.mk 0 0 "LC08_044033_20170716" "044033" "LANDSAT_8"
        (fun _ => true)).count < (1 : ℚ)) :=
  let h := scene_stats_defaults_and_count_filter
    (fun _ => TStats.mk none none) 1
    [Scene.mk "1_2_LC08_044033_20170716" "LANDSAT_8" (fun _ => true)] []
    (Scene.mk "1_2_LC08_044033_20170716" "LANDSAT_8" (fun _ => true))
    (SceneImg.mk 0 0 "LC08_044033_20170716" "044033" "LANDSAT_8"
        (fun _ => true))
    rfl (List.mem_singleton.mpr rfl) rfl
  ⟨h.1 rfl, h.2.1 rfl, h.2.2.2.2⟩

/-- Claim C9: the normalized scene identifier keeps exactly the last three
underscore-separated components of the raw identifier (dropping the
components the collection merge prefixes) joined by underscores, and the
tile code is the substring of the normalized identifier at character
positions 5 through 10 — which, for the standard component widths (4-char
sensor code, 6-char path/row code), is exactly the path/row component. -/
theorem scene_id_normalization (idx a b c : String)
    (hsplit : (splitU idx).drop ((splitU idx).length - 3) = [a, b, c])
    (ha : a.length = 4) (hb : b.length = 6) :
    normalized_scene_id idx = some (a ++ "_" ++ b ++ "_" ++ c) ∧
    sliceStr (a ++ "_" ++ b ++ "_" ++ c) 5 11 = b ∧
    ∀ (model : Scene → TStats) (s : Scene) (img : SceneImg),
      s.system_index = idx → tcorr_img_func model s = some img →
      img.scene_id = a ++ "_" ++ b ++ "_" ++ c ∧ img.wrs2_tile = b := by
  have hnorm : normalized_scene_id idx = some (a ++ "_" ++ b ++ "_" ++ c) := by
    unfold normalized_scene_id
    rw [hsplit]
  have hslice : sliceStr (a ++ "_" ++ b ++ "_" ++ c) 5 11 = b := by
    unfold sliceStr
    have hdata : (a ++ "_" ++ b ++ "_" ++ c).data
        = (a.data ++ ['_']) ++ (b.data ++ '_' :: c.data) := by
      simp [String.data_append, List.append_assoc]
    have h5 : (a.data ++ ['_']).length = 5 := by
      have ha' : a.data.length = 4 := ha
      simp [ha']
    have h6 : 11 - 5 = b.data.length := by
      have hb' : b.data.length = 6 := hb
      omega
    rw [hdata, List.drop_left' h5, h6, List.take_left]
  refine ⟨hnorm, hslice, fun model s img hidx himg => ?_⟩
  unfold tcorr_img_func at himg
  rw [hidx, hnorm] at himg
  injection himg with h'
  rw [← h']
  exact ⟨rfl, hslice⟩

/-- Witness for C9 on the merged-collection identifier
"1_2_LC08_044033_20170716": the merge prefixes are dropped, the last three
components are joined, and the tile is the path/row code "044033". -/
theorem scene_id_normalization_witness :
    normalized_scene_id "1_2_LC08_044033_20170716" =
      some ("LC08" ++ "_" ++ "044033" ++ "_" ++ "20170716") ∧
    sliceStr ("LC08" ++ "_" ++ "044033" ++ "_" ++ "20170716") 5 11 =
      "044033" :=
  ⟨(scene_id_normalization "1_2_LC08_044033_20170716" "LC08" "044033"
      "20170716" (by decide) (by decide) (by decide)).1,
   (scene_id_normalization "1_2_LC08_044033_20170716" "LC08" "044033"
      "20170716" (by decide) (by decide) (by decide)).2.1⟩

end SSEBop
